import Mathlib

/-!
Verification of the SignalJob pipeline (src/run.py).

The pipeline is embedded shallowly: the file system is modelled by boolean
existence flags and `Option`-valued parse results (a `none` parse result
stands for a parser exception), YAML scalars by the `Val` type, the pandas
data frame by the columns it carries together with its numeric "close"
column, and floats by rationals.  Exceptions are modelled with
`Except String`, an exception's `str(e)` being the carried string.
-/

/-- A YAML scalar value as produced by the config parser. -/
inductive Val where
  | int (n : ℤ)
  | str (s : String)
  deriving DecidableEq, Repr

/-- A parsed YAML mapping: association list from key to scalar value. -/
abbrev ConfigFile := List (String × Val)

/-- Dictionary lookup, `config[key]` on the parsed mapping. -/
def lookupKey (cfg : ConfigFile) (k : String) : Option Val :=
  (cfg.find? (fun p => p.1 = k)).map (fun p => p.2)

/-- Membership test, `key in config` on the parsed mapping. -/
def hasKey (cfg : ConfigFile) (k : String) : Bool :=
  (lookupKey cfg k).isSome

/-- The `load_config` function of run.py.  `pathExists` models
`os.path.exists(config_path)`; `parsed` models the outcome of
`yaml.safe_load` (`none` when the parse raises).  The required-key loop is
unrolled over the literal list `["seed", "window", "version"]`. -/
def load_config (pathExists : Bool) (parsed : Option ConfigFile) :
    Except String ConfigFile :=
  if pathExists = false then .error "Configuration file not found."
  else
    match parsed with
    | none => .error "yaml parse error"
    | some config =>
      if hasKey config "seed" = false then
        .error "Missing required config field: seed"
      else if hasKey config "window" = false then
        .error "Missing required config field: window"
      else if hasKey config "version" = false then
        .error "Missing required config field: version"
      else .ok config

/-- A pandas data frame as far as the pipeline observes it: its column
names, its number of rows, and the numeric "close" column (meaningful when
"close" is among the columns, in which case its length equals `nrows`). -/
structure DataFrame where
  columns : List String
  nrows : ℕ
  close : List ℚ
  deriving DecidableEq, Repr

/-- The `load_data` function of run.py.  `pathExists` models
`os.path.exists(input_path)`; `parsed` models `pd.read_csv` (`none` when
the parse raises, in which case the code re-raises a ValueError). -/
def load_data (pathExists : Bool) (parsed : Option DataFrame) :
    Except String DataFrame :=
  if pathExists = false then .error "Input CSV file not found."
  else
    match parsed with
    | none => .error "Invalid CSV file format."
    | some df =>
      if df.nrows = 0 then .error "Input CSV file is empty."
      else if ("close" ∈ df.columns) = false then
        .error "Required column 'close' is missing."
      else .ok df

/-- `df["close"].rolling(window=w).mean()` for an integer `w ≥ 0` over a
numeric column: entry `i` is the mean of the `w` values ending at and
including index `i`, and is undefined (NaN) while fewer than `w` values
are available (`min_periods` defaults to the window size). -/
def rollingMean (w : ℕ) (close : List ℚ) : List (Option ℚ) :=
  (List.range close.length).map fun i =>
    if 1 ≤ w ∧ w ≤ i + 1 then
      some ((((close.take (i + 1)).drop (i + 1 - w)).sum) / (w : ℚ))
    else none

/-- `df["close"].rolling(window=window)` applied to an arbitrary config
value: pandas raises a ValueError unless the window is a non-negative
integer; otherwise the rolling mean is computed. -/
def rollingApply (window : Val) (close : List ℚ) :
    Except String (List (Option ℚ)) :=
  match window with
  | .int n =>
    if n < 0 then .error "window must be non-negative"
    else .ok (rollingMean n.toNat close)
  | .str _ => .error "window must be an integer 0 or greater"

/-- One entry of `np.where(close > rolling_mean, 1, 0)`: a comparison
against NaN (an undefined rolling mean) is false, so the result is 0. -/
def signalOf (c : ℚ) (m : Option ℚ) : ℕ :=
  match m with
  | none => 0
  | some mv => if mv < c then 1 else 0

/-- The full signal column `np.where(df["close"] > df["rolling_mean"], 1, 0)`. -/
def signals (close : List ℚ) (rm : List (Option ℚ)) : List ℕ :=
  List.zipWith signalOf close rm

/-- Round to the nearest integer, ties to even — the rounding of Python's
built-in `round`. -/
def roundHalfEven (q : ℚ) : ℤ :=
  if q - ⌊q⌋ < 1 / 2 then ⌊q⌋
  else if 1 / 2 < q - ⌊q⌋ then ⌊q⌋ + 1
  else if ⌊q⌋ % 2 = 0 then ⌊q⌋ else ⌊q⌋ + 1

/-- `round(x, 4)` of Python, on the rational model of floats. -/
def round4 (q : ℚ) : ℚ :=
  (roundHalfEven (q * 10000) : ℚ) / 10000

/-- The success record assembled at the end of the try block of `main`. -/
structure Metrics where
  version : Val
  rows_processed : ℕ
  metric : String
  value : ℚ
  latency_ms : ℕ
  seed : Val
  status : String
  deriving DecidableEq, Repr

/-- The record assembled in the except handler of `main`. -/
structure ErrorResult where
  version : String
  status : String
  error_message : String
  deriving DecidableEq, Repr

/-- What gets serialized to the output file and to standard output. -/
inductive Output where
  | metrics (m : Metrics)
  | err (e : ErrorResult)
  deriving DecidableEq, Repr

/-- The observable outcome of one run of `main`: the document written to
the output path, the document printed to stdout, the process exit code,
and the rounded signal rate appearing in the metrics log line (absent when
the run fails before logging metrics). -/
structure RunResult where
  fileOut : Output
  stdout : Output
  exitCode : ℕ
  logValue : Option ℚ
  deriving DecidableEq, Repr

/-- The external world as `main` observes it: existence and parse outcome
of the config file and of the input CSV. -/
structure Env where
  configExists : Bool
  configParsed : Option ConfigFile
  inputExists : Bool
  inputParsed : Option DataFrame
  deriving DecidableEq, Repr

/-- The try block of `main` (run.py lines 69–119): load config, read the
three keys, load data, compute the rolling mean and the signal column,
aggregate the metrics.  `latency` models `int((time.time()-start_time)*1000)`.
Returns the metrics record paired with the rounded rate that is written to
the metrics log line (run.py line 112, a second `round(signal_rate, 4)`). -/
def tryBlock (env : Env) (latency : ℕ) : Except String (Metrics × ℚ) :=
  match load_config env.configExists env.configParsed with
  | .error e => .error e
  | .ok config =>
    let seed := (lookupKey config "seed").getD (.str "")
    let window := (lookupKey config "window").getD (.str "")
    let version := (lookupKey config "version").getD (.str "")
    match load_data env.inputExists env.inputParsed with
    | .error e => .error e
    | .ok df =>
      match rollingApply window df.close with
      | .error e => .error e
      | .ok rm =>
        let sig := signals df.close rm
        let rows_processed := df.nrows
        let signal_rate : ℚ := (sig.sum : ℚ) / (sig.length : ℚ)
        .ok ({ version := version
               rows_processed := rows_processed
               metric := "signal_rate"
               value := round4 signal_rate
               latency_ms := latency
               seed := seed
               status := "success" },
             round4 signal_rate)

/-- The `main` function of run.py: run the try block; on success write the
metrics to the output file, print them, exit 0; on any exception write the
error record (version fixed to the literal "v1"), print it, exit 1. -/
def mainRun (env : Env) (latency : ℕ) : RunResult :=
  match tryBlock env latency with
  | .ok (m, logged) =>
    { fileOut := .metrics m
      stdout := .metrics m
      exitCode := 0
      logValue := some logged }
  | .error e =>
    let er : ErrorResult := { version := "v1", status := "error", error_message := e }
    { fileOut := .err er
      stdout := .err er
      exitCode := 1
      logValue := none }


/-- A well-formed config mapping used by the concrete examples. -/
def cfgEx : ConfigFile :=
  [("seed", .int 42), ("window", .int 3), ("version", .str "v1")]

/-- The five-row example frame with close = [1,2,3,4,5]. -/
def dfEx5 : DataFrame :=
  { columns := ["close"], nrows := 5, close := [1, 2, 3, 4, 5] }

/-- The three-row example frame with close = [1,2,3]. -/
def dfEx3 : DataFrame :=
  { columns := ["close"], nrows := 3, close := [1, 2, 3] }

/-- Environment for the specification example: window 3, close [1,2,3,4,5]. -/
def envEx5 : Env :=
  { configExists := true, configParsed := some cfgEx,
    inputExists := true, inputParsed := some dfEx5 }

/-- Environment with window 3 and close [1,2,3], whose signal rate 1/3 is
not representable in four decimal places. -/
def envEx3 : Env :=
  { configExists := true, configParsed := some cfgEx,
    inputExists := true, inputParsed := some dfEx3 }


/-- A config whose window value is a non-numeric string. -/
def cfgBadWin : ConfigFile :=
  [("seed", .int 42), ("window", .str "three"), ("version", .str "v1")]

/-- Environment pairing the bad-window config with the three-row frame. -/
def envBadWin : Env :=
  { configExists := true, configParsed := some cfgBadWin,
    inputExists := true, inputParsed := some dfEx3 }

/-- A config whose window 9 exceeds the three rows of `dfEx3`. -/
def cfgWin9 : ConfigFile :=
  [("seed", .int 42), ("window", .int 9), ("version", .str "v1")]

/-- Environment pairing the oversized window with the three-row frame. -/
def envWin9 : Env :=
  { configExists := true, configParsed := some cfgWin9,
    inputExists := true, inputParsed := some dfEx3 }

/-! ### Helper lemmas about the embedded operations -/

theorem rollingMean_length (w : ℕ) (close : List ℚ) :
    (rollingMean w close).length = close.length := by
  simp [rollingMean]

theorem rollingMean_getElem? (w : ℕ) (close : List ℚ) (i : ℕ)
    (hi : i < close.length) :
    (rollingMean w close)[i]? =
      some (if 1 ≤ w ∧ w ≤ i + 1 then
        some ((((close.take (i + 1)).drop (i + 1 - w)).sum) / (w : ℚ))
      else none) := by
  simp [rollingMean, List.getElem?_map, List.getElem?_range hi]

theorem load_config_ok (pe : Bool) (p : Option ConfigFile) (cfg : ConfigFile)
    (h : load_config pe p = .ok cfg) :
    pe = true ∧ p = some cfg ∧ hasKey cfg "seed" = true ∧
      hasKey cfg "window" = true ∧ hasKey cfg "version" = true := by
  unfold load_config at h
  split at h
  · simp at h
  · split at h
    · simp at h
    · split at h
      · simp at h
      · split at h
        · simp at h
        · split at h
          · simp at h
          · cases h
            simp_all

theorem load_data_ok (pe : Bool) (p : Option DataFrame) (df : DataFrame)
    (h : load_data pe p = .ok df) :
    pe = true ∧ p = some df ∧ df.nrows ≠ 0 ∧ "close" ∈ df.columns := by
  unfold load_data at h
  split at h
  · simp at h
  · split at h
    · simp at h
    · split at h
      · simp at h
      · split at h
        · simp at h
        · cases h
          simp_all

/-- The predicate "close is strictly above a defined rolling mean" on one
row, an undefined rolling mean comparing as false. -/
def aboveMean (p : ℚ × Option ℚ) : Bool :=
  match p.2 with
  | some mv => decide (mv < p.1)
  | none => false

/-- The fraction of rows at which close is strictly greater than the
rolling mean, rows with an undefined rolling mean counting toward the
denominator only — the quantity the specification calls the fraction of
signalled rows. -/
def fractionAbove (close : List ℚ) (rm : List (Option ℚ)) : ℚ :=
  (((close.zip rm).countP aboveMean : ℚ)) / (close.length : ℚ)

theorem signalOf_eq_aboveMean (c : ℚ) (m : Option ℚ) :
    signalOf c m = if aboveMean (c, m) then 1 else 0 := by
  cases m with
  | none => rfl
  | some mv =>
    by_cases h : mv < c <;> simp [signalOf, aboveMean, h]

theorem signals_sum_eq_countP (close : List ℚ) (rm : List (Option ℚ)) :
    (signals close rm).sum = (close.zip rm).countP aboveMean := by
  induction close generalizing rm with
  | nil => simp [signals]
  | cons c cs ih =>
    cases rm with
    | nil => simp [signals]
    | cons r rs =>
      have ih' := ih rs
      simp only [signals] at ih'
      simp only [signals, List.zipWith_cons_cons, List.sum_cons,
        List.zip_cons_cons, List.countP_cons, signalOf_eq_aboveMean]
      by_cases h : aboveMean (c, r) <;> simp [h] <;> omega

theorem signalOf_le_one (c : ℚ) (m : Option ℚ) : signalOf c m ≤ 1 := by
  cases m with
  | none => simp [signalOf]
  | some mv => by_cases h : mv < c <;> simp [signalOf, h]

theorem signals_sum_le_length (close : List ℚ) (rm : List (Option ℚ)) :
    (signals close rm).sum ≤ (signals close rm).length := by
  induction close generalizing rm with
  | nil => simp [signals]
  | cons c cs ih =>
    cases rm with
    | nil => simp [signals]
    | cons r rs =>
      simp only [signals, List.zipWith_cons_cons, List.sum_cons, List.length_cons]
      have h1 := signalOf_le_one c r
      have h2 := ih rs
      simp only [signals] at h2
      omega

theorem signals_length (close : List ℚ) (rm : List (Option ℚ))
    (h : rm.length = close.length) :
    (signals close rm).length = close.length := by
  simp [signals, List.length_zipWith, h]

theorem roundHalfEven_nonneg (q : ℚ) (h : 0 ≤ q) : 0 ≤ roundHalfEven q := by
  have hf : (0 : ℤ) ≤ ⌊q⌋ := Int.le_floor.mpr (by exact_mod_cast h)
  unfold roundHalfEven
  split_ifs <;> omega

theorem roundHalfEven_le (q : ℚ) (B : ℤ) (h : q ≤ B) : roundHalfEven q ≤ B := by
  have hfB : ⌊q⌋ ≤ B := by
    calc ⌊q⌋ ≤ ⌊(B : ℚ)⌋ := Int.floor_le_floor h
    _ = B := Int.floor_intCast B
  have hfle : (⌊q⌋ : ℚ) ≤ q := Int.floor_le q
  unfold roundHalfEven
  split_ifs with h1 h2 h3
  · exact hfB
  · -- here 1/2 < q - ⌊q⌋, so q is strictly above its floor and ⌊q⌋ < B
    have hlt : (⌊q⌋ : ℚ) < (B : ℚ) := by linarith
    have : ⌊q⌋ < B := by exact_mod_cast hlt
    omega
  · exact hfB
  · -- tie case, q - ⌊q⌋ = 1/2, again ⌊q⌋ strictly below q hence below B
    have hhalf : (1 : ℚ) / 2 ≤ q - ⌊q⌋ := le_of_not_lt h1
    have hlt : (⌊q⌋ : ℚ) < (B : ℚ) := by linarith
    have : ⌊q⌋ < B := by exact_mod_cast hlt
    omega

theorem round4_nonneg (q : ℚ) (h : 0 ≤ q) : 0 ≤ round4 q := by
  unfold round4
  have := roundHalfEven_nonneg (q * 10000) (by positivity)
  positivity

theorem round4_le_one (q : ℚ) (h : q ≤ 1) : round4 q ≤ 1 := by
  unfold round4
  have hb : roundHalfEven (q * 10000) ≤ (10000 : ℤ) :=
    roundHalfEven_le _ _ (by push_cast; linarith)
  rw [div_le_one (by norm_num)]
  exact_mod_cast hb

theorem tryBlock_err_config (env : Env) (l : ℕ) (e : String)
    (hc : load_config env.configExists env.configParsed = .error e) :
    tryBlock env l = .error e := by
  unfold tryBlock
  rw [hc]

theorem tryBlock_err_data (env : Env) (l : ℕ) (cfg : ConfigFile) (e : String)
    (hc : load_config env.configExists env.configParsed = .ok cfg)
    (hd : load_data env.inputExists env.inputParsed = .error e) :
    tryBlock env l = .error e := by
  unfold tryBlock
  rw [hc]
  dsimp only
  rw [hd]

theorem tryBlock_err_rolling (env : Env) (l : ℕ) (cfg : ConfigFile)
    (df : DataFrame) (e : String)
    (hc : load_config env.configExists env.configParsed = .ok cfg)
    (hd : load_data env.inputExists env.inputParsed = .ok df)
    (hr : rollingApply ((lookupKey cfg "window").getD (.str "")) df.close = .error e) :
    tryBlock env l = .error e := by
  unfold tryBlock
  rw [hc]
  dsimp only
  rw [hd]
  dsimp only
  rw [hr]

theorem tryBlock_ok_intro (env : Env) (l : ℕ) (cfg : ConfigFile)
    (df : DataFrame) (rm : List (Option ℚ))
    (hc : load_config env.configExists env.configParsed = .ok cfg)
    (hd : load_data env.inputExists env.inputParsed = .ok df)
    (hr : rollingApply ((lookupKey cfg "window").getD (.str "")) df.close = .ok rm) :
    tryBlock env l =
      .ok ({ version := (lookupKey cfg "version").getD (.str "")
             rows_processed := df.nrows
             metric := "signal_rate"
             value := round4 (((signals df.close rm).sum : ℚ) /
               ((signals df.close rm).length : ℚ))
             latency_ms := l
             seed := (lookupKey cfg "seed").getD (.str "")
             status := "success" },
           round4 (((signals df.close rm).sum : ℚ) /
             ((signals df.close rm).length : ℚ))) := by
  unfold tryBlock
  rw [hc]
  dsimp only
  rw [hd]
  dsimp only
  rw [hr]

theorem tryBlock_ok_inv (env : Env) (l : ℕ) (m : Metrics) (q : ℚ)
    (h : tryBlock env l = .ok (m, q)) :
    ∃ cfg df rm,
      load_config env.configExists env.configParsed = .ok cfg ∧
      load_data env.inputExists env.inputParsed = .ok df ∧
      rollingApply ((lookupKey cfg "window").getD (.str "")) df.close = .ok rm ∧
      m = { version := (lookupKey cfg "version").getD (.str "")
            rows_processed := df.nrows
            metric := "signal_rate"
            value := round4 (((signals df.close rm).sum : ℚ) /
              ((signals df.close rm).length : ℚ))
            latency_ms := l
            seed := (lookupKey cfg "seed").getD (.str "")
            status := "success" } ∧
      q = m.value := by
  cases hc : load_config env.configExists env.configParsed with
  | error e => rw [tryBlock_err_config env l e hc] at h; simp at h
  | ok cfg =>
    cases hd : load_data env.inputExists env.inputParsed with
    | error e => rw [tryBlock_err_data env l cfg e hc hd] at h; simp at h
    | ok df =>
      cases hr : rollingApply ((lookupKey cfg "window").getD (.str "")) df.close with
      | error e => rw [tryBlock_err_rolling env l cfg df e hc hd hr] at h; simp at h
      | ok rm =>
        have key := tryBlock_ok_intro env l cfg df rm hc hd hr
        rw [h] at key
        simp only [Except.ok.injEq, Prod.mk.injEq] at key
        obtain ⟨hm, hq⟩ := key
        exact ⟨cfg, df, rm, rfl, rfl, hr, hm, by rw [hq, hm]⟩

theorem mainRun_of_ok (env : Env) (l : ℕ) (m : Metrics) (q : ℚ)
    (h : tryBlock env l = .ok (m, q)) :
    mainRun env l =
      { fileOut := .metrics m, stdout := .metrics m, exitCode := 0,
        logValue := some q } := by
  unfold mainRun
  rw [h]

theorem mainRun_of_error (env : Env) (l : ℕ) (e : String)
    (h : tryBlock env l = .error e) :
    mainRun env l =
      { fileOut := .err { version := "v1", status := "error", error_message := e }
        stdout := .err { version := "v1", status := "error", error_message := e }
        exitCode := 1
        logValue := none } := by
  unfold mainRun
  rw [h]

theorem mainRun_metrics_inv (env : Env) (l : ℕ) (m : Metrics)
    (h : (mainRun env l).fileOut = .metrics m) :
    ∃ q, tryBlock env l = .ok (m, q) := by
  cases ht : tryBlock env l with
  | error e =>
    rw [mainRun_of_error env l e ht] at h
    simp at h
  | ok p =>
    obtain ⟨m', q⟩ := p
    rw [mainRun_of_ok env l m' q ht] at h
    simp only [Output.metrics.injEq] at h
    subst h
    exact ⟨q, rfl⟩

/-! ### Claim theorems -/

/-- C1: for every input table and every window w ≥ 1, the rolling mean at
row i (0-indexed) is undefined for i < w−1, and for i ≥ w−1 equals the
arithmetic mean of the trailing window of w close values ending at and
including row i (that window having exactly w entries). -/
theorem C1_rolling_mean_window (w : ℕ) (close : List ℚ) (i : ℕ)
    (hw : 1 ≤ w) (hi : i < close.length) :
    (i < w - 1 → (rollingMean w close)[i]? = some none) ∧
    (w - 1 ≤ i →
      ((close.drop (i + 1 - w)).take w).length = w ∧
      (rollingMean w close)[i]? =
        some (some (((close.drop (i + 1 - w)).take w).sum /
          (((close.drop (i + 1 - w)).take w).length : ℚ)))) := by
  constructor
  · intro hlt
    rw [rollingMean_getElem? w close i hi]
    have hcond : ¬(1 ≤ w ∧ w ≤ i + 1) := by omega
    rw [if_neg hcond]
  · intro hge
    have hcond : 1 ≤ w ∧ w ≤ i + 1 := ⟨hw, by omega⟩
    have hlen : ((close.drop (i + 1 - w)).take w).length = w := by
      rw [List.length_take, List.length_drop]
      omega
    refine ⟨hlen, ?_⟩
    rw [rollingMean_getElem? w close i hi, if_pos hcond]
    have hslice : (close.take (i + 1)).drop (i + 1 - w)
        = (close.drop (i + 1 - w)).take w := by
      rw [List.drop_take]
      congr 1
      omega
    rw [hslice, hlen]

/-- Witness for C1 at w = 3, close = [1,2,3,4,5], i = 4: the rolling mean
there evaluates to 4. -/
theorem C1_rolling_mean_window_witness :
    (rollingMean 3 [1, 2, 3, 4, 5])[4]? = some (some 4) := by
  have h :=
    (C1_rolling_mean_window 3 [1, 2, 3, 4, 5] 4 (by decide) (by decide)).2 (by decide)
  rw [h.2]
  norm_num

/-- C2: at every row the signal is 1 when close is strictly greater than a
defined rolling mean and 0 otherwise; at each of the first w−1 rows, where
the rolling mean is undefined, the comparison is "not greater than" and
the signal is the defined value 0 (never a missing marker). -/
theorem C2_signal_policy (w : ℕ) (close : List ℚ) (i : ℕ)
    (hi : i < close.length) :
    (∀ mv : ℚ, (rollingMean w close)[i]? = some (some mv) →
      (signals close (rollingMean w close))[i]? =
        some (if mv < close[i] then 1 else 0)) ∧
    ((rollingMean w close)[i]? = some none →
      (signals close (rollingMean w close))[i]? = some 0) ∧
    (i < w - 1 → (signals close (rollingMean w close))[i]? = some 0) := by
  have hclose : close[i]? = some close[i] := List.getElem?_eq_getElem hi
  have hundef : (rollingMean w close)[i]? = some none →
      (signals close (rollingMean w close))[i]? = some 0 := by
    intro hmv
    simp only [signals, List.getElem?_zipWith, hclose, hmv]
    rfl
  refine ⟨?_, hundef, ?_⟩
  · intro mv hmv
    simp only [signals, List.getElem?_zipWith, hclose, hmv]
    rfl
  · intro hlt
    apply hundef
    rw [rollingMean_getElem? w close i hi]
    have hcond : ¬(1 ≤ w ∧ w ≤ i + 1) := by omega
    rw [if_neg hcond]

/-- Witness for C2 at w = 3, close = [1,2,3,4,5]: row 1 (undefined rolling
mean) yields signal 0, row 2 (close 3 above mean 2) yields signal 1. -/
theorem C2_signal_policy_witness :
    (signals [1, 2, 3, 4, 5] (rollingMean 3 [1, 2, 3, 4, 5]))[1]? = some 0 ∧
    (signals [1, 2, 3, 4, 5] (rollingMean 3 [1, 2, 3, 4, 5]))[2]? = some 1 := by
  have hrm : rollingMean 3 [1, 2, 3, 4, 5] = [none, none, some 2, some 3, some 4] := by
    norm_num [rollingMean, List.range_succ]
  constructor
  · exact (C2_signal_policy 3 [1, 2, 3, 4, 5] 1 (by decide)).2.2 (by decide)
  · have h := (C2_signal_policy 3 [1, 2, 3, 4, 5] 2 (by decide)).1 2 (by rw [hrm]; rfl)
    rw [h]
    norm_num


theorem rollingMean_ex5 :
    rollingMean 3 [1, 2, 3, 4, 5] = [none, none, some 2, some 3, some 4] := by
  norm_num [rollingMean, List.range_succ]

theorem signals_ex5 :
    signals [1, 2, 3, 4, 5] (rollingMean 3 [1, 2, 3, 4, 5]) = [0, 0, 1, 1, 1] := by
  rw [rollingMean_ex5]
  norm_num [signals, signalOf]

theorem mainRun_envEx5 (l : ℕ) :
    mainRun envEx5 l =
      { fileOut := .metrics { version := .str "v1", rows_processed := 5,
                              metric := "signal_rate", value := 3 / 5,
                              latency_ms := l, seed := .int 42,
                              status := "success" }
        stdout := .metrics { version := .str "v1", rows_processed := 5,
                             metric := "signal_rate", value := 3 / 5,
                             latency_ms := l, seed := .int 42,
                             status := "success" }
        exitCode := 0
        logValue := some (3 / 5) } := by
  have hc : load_config envEx5.configExists envEx5.configParsed = .ok cfgEx := by
    rfl
  have hd : load_data envEx5.inputExists envEx5.inputParsed = .ok dfEx5 := by
    rfl
  have hr : rollingApply ((lookupKey cfgEx "window").getD (.str "")) dfEx5.close
      = .ok (rollingMean 3 [1, 2, 3, 4, 5]) := rfl
  have key := tryBlock_ok_intro envEx5 l cfgEx dfEx5
    (rollingMean 3 [1, 2, 3, 4, 5]) hc hd hr
  rw [mainRun_of_ok _ _ _ _ key]
  have hval : round4 (((signals dfEx5.close (rollingMean 3 [1, 2, 3, 4, 5])).sum : ℚ) /
      ((signals dfEx5.close (rollingMean 3 [1, 2, 3, 4, 5])).length : ℚ)) = 3 / 5 := by
    show round4 (((signals [1, 2, 3, 4, 5] (rollingMean 3 [1, 2, 3, 4, 5])).sum : ℚ) /
      ((signals [1, 2, 3, 4, 5] (rollingMean 3 [1, 2, 3, 4, 5])).length : ℚ)) = 3 / 5
    rw [signals_ex5]
    norm_num [round4, roundHalfEven]
  rw [hval]
  have hv : (lookupKey cfgEx "version").getD (.str "") = .str "v1" := by decide
  have hs : (lookupKey cfgEx "seed").getD (.str "") = .int 42 := by decide
  rw [hv, hs]
  rfl

theorem rollingMean_ex3 :
    rollingMean 3 [1, 2, 3] = [none, none, some 2] := by
  norm_num [rollingMean, List.range_succ]

theorem signals_ex3 :
    signals [1, 2, 3] (rollingMean 3 [1, 2, 3]) = [0, 0, 1] := by
  rw [rollingMean_ex3]
  norm_num [signals, signalOf]

theorem round4_one_third : round4 (1 / 3) = 3333 / 10000 := by
  have hfloor : ⌊(1 : ℚ) / 3 * 10000⌋ = 3333 := by
    rw [Int.floor_eq_iff]
    constructor <;> norm_num
  norm_num [round4, roundHalfEven, hfloor]

theorem mainRun_envEx3 (l : ℕ) :
    mainRun envEx3 l =
      { fileOut := .metrics { version := .str "v1", rows_processed := 3,
                              metric := "signal_rate", value := 3333 / 10000,
                              latency_ms := l, seed := .int 42,
                              status := "success" }
        stdout := .metrics { version := .str "v1", rows_processed := 3,
                             metric := "signal_rate", value := 3333 / 10000,
                             latency_ms := l, seed := .int 42,
                             status := "success" }
        exitCode := 0
        logValue := some (3333 / 10000) } := by
  have hc : load_config envEx3.configExists envEx3.configParsed = .ok cfgEx := by
    rfl
  have hd : load_data envEx3.inputExists envEx3.inputParsed = .ok dfEx3 := by
    rfl
  have hr : rollingApply ((lookupKey cfgEx "window").getD (.str "")) dfEx3.close
      = .ok (rollingMean 3 [1, 2, 3]) := rfl
  have key := tryBlock_ok_intro envEx3 l cfgEx dfEx3
    (rollingMean 3 [1, 2, 3]) hc hd hr
  rw [mainRun_of_ok _ _ _ _ key]
  have hval : round4 (((signals dfEx3.close (rollingMean 3 [1, 2, 3])).sum : ℚ) /
      ((signals dfEx3.close (rollingMean 3 [1, 2, 3])).length : ℚ)) = 3333 / 10000 := by
    show round4 (((signals [1, 2, 3] (rollingMean 3 [1, 2, 3])).sum : ℚ) /
      ((signals [1, 2, 3] (rollingMean 3 [1, 2, 3])).length : ℚ)) = 3333 / 10000
    rw [signals_ex3]
    norm_num
    exact round4_one_third
  rw [hval]
  have hv : (lookupKey cfgEx "version").getD (.str "") = .str "v1" := by decide
  have hs : (lookupKey cfgEx "seed").getD (.str "") = .int 42 := by decide
  rw [hv, hs]
  rfl

theorem rollingApply_ok_length (w : Val) (close : List ℚ) (rm : List (Option ℚ))
    (hr : rollingApply w close = .ok rm) : rm.length = close.length := by
  cases w with
  | int n =>
    simp only [rollingApply] at hr
    split at hr
    · simp at hr
    · simp only [Except.ok.injEq] at hr
      rw [← hr, rollingMean_length]
  | str s => simp [rollingApply] at hr

/-- C4: on close = [1,2,3,4,5] with window 3 the pipeline computes rolling
mean [undefined, undefined, 2, 3, 4] and signal [0, 0, 1, 1, 1], and the
run succeeds with signal_rate value 3/5 = 0.6. -/
theorem C4_concrete_example :
    rollingMean 3 [1, 2, 3, 4, 5] = [none, none, some 2, some 3, some 4] ∧
    signals [1, 2, 3, 4, 5] (rollingMean 3 [1, 2, 3, 4, 5]) = [0, 0, 1, 1, 1] ∧
    mainRun envEx5 0 =
      { fileOut := .metrics { version := .str "v1", rows_processed := 5,
                              metric := "signal_rate", value := 3 / 5,
                              latency_ms := 0, seed := .int 42,
                              status := "success" }
        stdout := .metrics { version := .str "v1", rows_processed := 5,
                             metric := "signal_rate", value := 3 / 5,
                             latency_ms := 0, seed := .int 42,
                             status := "success" }
        exitCode := 0
        logValue := some (3 / 5) } :=
  ⟨rollingMean_ex5, signals_ex5, mainRun_envEx5 0⟩

/-- C5: for every failure anywhere in the try block (config loading, data
loading, transform, metrics aggregation) the job writes to the output path
an ErrorResult of shape {version, status, error_message} whose version is
the fixed literal "v1" — independent of whatever config content may or may
not have parsed, since the environment here is arbitrary — prints the same
record to standard output, logs no metrics value, and exits with code 1. -/
theorem C5_error_reporting (env : Env) (l : ℕ) (e : String)
    (h : tryBlock env l = .error e) :
    mainRun env l =
      { fileOut := .err { version := "v1", status := "error", error_message := e }
        stdout := .err { version := "v1", status := "error", error_message := e }
        exitCode := 1
        logValue := none } :=
  mainRun_of_error env l e h

/-- Witness for C5: a run whose config file is missing fails with the
not-found message, reported with the literal version "v1" and exit code 1. -/
theorem C5_error_reporting_witness :
    mainRun { configExists := false, configParsed := none,
              inputExists := false, inputParsed := none } 0 =
      { fileOut := .err { version := "v1", status := "error",
                          error_message := "Configuration file not found." }
        stdout := .err { version := "v1", status := "error",
                         error_message := "Configuration file not found." }
        exitCode := 1
        logValue := none } :=
  C5_error_reporting _ 0 _ (by rfl)

/-- C6: the data loader fails on the first failing check in the order
missing path, parse failure, empty table, missing "close" column, and when
all checks pass it returns the parsed table unchanged, with no validation
of any other column. -/
theorem C6_load_data_order (parsed : Option DataFrame) (df : DataFrame) :
    load_data false parsed = .error "Input CSV file not found." ∧
    load_data true none = .error "Invalid CSV file format." ∧
    (load_data true (some df) = .error "Input CSV file is empty." ↔
      df.nrows = 0) ∧
    (load_data true (some df) = .error "Required column 'close' is missing." ↔
      df.nrows ≠ 0 ∧ "close" ∉ df.columns) ∧
    (load_data true (some df) = .ok df ↔
      df.nrows ≠ 0 ∧ "close" ∈ df.columns) := by
  refine ⟨by rfl, by rfl, ?_, ?_, ?_⟩ <;>
    · unfold load_data
      by_cases hn : df.nrows = 0 <;> by_cases hc : "close" ∈ df.columns <;>
        simp [hn, hc]

/-- C3 (amended): on every successful run the reported value lies in
[0, 1], and it equals the fraction of rows where close is strictly greater
than the rolling mean — rows with an undefined rolling mean counting
toward the denominator with signal 0 — rounded to 4 decimal places. -/
theorem C3_signal_rate_fraction (env : Env) (l : ℕ) (m : Metrics)
    (h : (mainRun env l).fileOut = .metrics m) :
    0 ≤ m.value ∧ m.value ≤ 1 ∧
    ∃ cfg df rm, env.configParsed = some cfg ∧ env.inputParsed = some df ∧
      rollingApply ((lookupKey cfg "window").getD (.str "")) df.close = .ok rm ∧
      m.value = round4 (fractionAbove df.close rm) := by
  obtain ⟨q, hq⟩ := mainRun_metrics_inv env l m h
  obtain ⟨cfg, df, rm, hc, hd, hr, hm, hqv⟩ := tryBlock_ok_inv env l m q hq
  have hrmlen : rm.length = df.close.length := rollingApply_ok_length _ _ _ hr
  have hslen : (signals df.close rm).length = df.close.length :=
    signals_length _ _ hrmlen
  have hrate : ((signals df.close rm).sum : ℚ) / ((signals df.close rm).length : ℚ)
      = fractionAbove df.close rm := by
    rw [signals_sum_eq_countP, hslen]
    rfl
  have hlb : 0 ≤ ((signals df.close rm).sum : ℚ) /
      ((signals df.close rm).length : ℚ) := by positivity
  have hub : ((signals df.close rm).sum : ℚ) /
      ((signals df.close rm).length : ℚ) ≤ 1 := by
    rcases Nat.eq_zero_or_pos (signals df.close rm).length with h0 | hpos
    · simp [h0]
    · rw [div_le_one (by exact_mod_cast hpos)]
      exact_mod_cast signals_sum_le_length df.close rm
  have hval : m.value = round4 (((signals df.close rm).sum : ℚ) /
      ((signals df.close rm).length : ℚ)) := by
    rw [hm]
  refine ⟨?_, ?_, cfg, df, rm, (load_config_ok _ _ _ hc).2.1,
    (load_data_ok _ _ _ hd).2.1, hr, ?_⟩
  · rw [hval]
    exact round4_nonneg _ hlb
  · rw [hval]
    exact round4_le_one _ hub
  · rw [hval, hrate]

/-- Witness for the amended C3 on the concrete five-row example run. -/
theorem C3_signal_rate_fraction_witness :
    0 ≤ (3 / 5 : ℚ) ∧ (3 / 5 : ℚ) ≤ 1 ∧
    ∃ cfg df rm, envEx5.configParsed = some cfg ∧ envEx5.inputParsed = some df ∧
      rollingApply ((lookupKey cfg "window").getD (.str "")) df.close = .ok rm ∧
      (3 / 5 : ℚ) = round4 (fractionAbove df.close rm) :=
  C3_signal_rate_fraction envEx5 0
    { version := .str "v1", rows_processed := 5, metric := "signal_rate",
      value := 3 / 5, latency_ms := 0, seed := .int 42, status := "success" }
    (by rw [mainRun_envEx5 0])

/-- C3 as literally stated is false: with close = [1,2,3] and window 3 the
run succeeds and the fraction of rows where close exceeds the rolling mean
is 1/3, but the reported value is 3333/10000, which differs from 1/3. -/
theorem C3_counterexample :
    (mainRun envEx3 0).fileOut =
      .metrics { version := .str "v1", rows_processed := 3,
                 metric := "signal_rate", value := 3333 / 10000,
                 latency_ms := 0, seed := .int 42, status := "success" } ∧
    fractionAbove dfEx3.close (rollingMean 3 dfEx3.close) = 1 / 3 ∧
    (3333 / 10000 : ℚ) ≠ 1 / 3 := by
  refine ⟨by rw [mainRun_envEx3 0], ?_, by norm_num⟩
  show fractionAbove [1, 2, 3] (rollingMean 3 [1, 2, 3]) = 1 / 3
  rw [rollingMean_ex3]
  norm_num [fractionAbove, aboveMean]

theorem signals_replicate_none (close : List ℚ) :
    signals close (List.replicate close.length none) =
      List.replicate close.length 0 := by
  induction close with
  | nil => rfl
  | cons c cs ih =>
    simp only [List.length_cons, List.replicate_succ, signals,
      List.zipWith_cons_cons] at ih ⊢
    rw [ih]
    rfl

theorem round4_zero : round4 0 = 0 := by
  norm_num [round4, roundHalfEven]

/-- C7: the config loader does no type checking of the window value — any
mapping containing the keys seed, window and version loads successfully
whatever window holds — and when the window value makes the rolling
transform raise, the failure surfaces from the transform step as an
ErrorResult with exit code 1, not from the config loader. -/
theorem C7_window_not_typechecked (cfg : ConfigFile) (w : Val) (df : DataFrame)
    (l : ℕ) (msg : String)
    (hs : hasKey cfg "seed" = true) (hw : hasKey cfg "window" = true)
    (hv : hasKey cfg "version" = true)
    (hwv : lookupKey cfg "window" = some w)
    (hn : df.nrows ≠ 0) (hc : "close" ∈ df.columns) :
    load_config true (some cfg) = .ok cfg ∧
    (rollingApply w df.close = .error msg →
      mainRun { configExists := true, configParsed := some cfg,
                inputExists := true, inputParsed := some df } l =
        { fileOut := .err { version := "v1", status := "error",
                            error_message := msg }
          stdout := .err { version := "v1", status := "error",
                           error_message := msg }
          exitCode := 1
          logValue := none }) := by
  have hok : load_config true (some cfg) = .ok cfg := by
    unfold load_config
    simp [hs, hw, hv]
  refine ⟨hok, fun hbad => ?_⟩
  have hdok : load_data true (some df) = .ok df := by
    unfold load_data
    simp [hn, hc]
  apply mainRun_of_error
  apply tryBlock_err_rolling _ l cfg df msg hok hdok
  rw [show (lookupKey cfg "window").getD (.str "") = w by rw [hwv]; rfl]
  exact hbad

/-- Witness for C7: a config whose window is the string "three" loads
successfully, and the run then fails from the rolling transform with exit
code 1 and the pandas window error message. -/
theorem C7_window_not_typechecked_witness :
    load_config true (some cfgBadWin) = .ok cfgBadWin ∧
    mainRun envBadWin 0 =
      { fileOut := .err { version := "v1", status := "error",
                          error_message := "window must be an integer 0 or greater" }
        stdout := .err { version := "v1", status := "error",
                         error_message := "window must be an integer 0 or greater" }
        exitCode := 1
        logValue := none } := by
  have h := C7_window_not_typechecked cfgBadWin (.str "three") dfEx3 0
    "window must be an integer 0 or greater" (by decide) (by decide) (by decide)
    (by decide) (by decide) (by decide)
  exact ⟨h.1, h.2 (by rfl)⟩

/-- C8: two runs over identical config file content and identical input
file content (the same environment), at possibly different elapsed times,
produce metrics records that agree on version, rows_processed, metric,
value, seed and status — everything except possibly latency_ms. -/
theorem C8_idempotent_runs (env : Env) (l1 l2 : ℕ) (m1 m2 : Metrics)
    (h1 : (mainRun env l1).fileOut = .metrics m1)
    (h2 : (mainRun env l2).fileOut = .metrics m2) :
    m1.version = m2.version ∧ m1.rows_processed = m2.rows_processed ∧
    m1.metric = m2.metric ∧ m1.value = m2.value ∧ m1.seed = m2.seed ∧
    m1.status = m2.status := by
  obtain ⟨q1, hq1⟩ := mainRun_metrics_inv env l1 m1 h1
  obtain ⟨q2, hq2⟩ := mainRun_metrics_inv env l2 m2 h2
  obtain ⟨cfg1, df1, rm1, hc1, hd1, hr1, hm1, _⟩ := tryBlock_ok_inv env l1 m1 q1 hq1
  obtain ⟨cfg2, df2, rm2, hc2, hd2, hr2, hm2, _⟩ := tryBlock_ok_inv env l2 m2 q2 hq2
  rw [hc1] at hc2
  injection hc2 with hcfg
  subst hcfg
  rw [hd1] at hd2
  injection hd2 with hdf
  subst hdf
  rw [hr1] at hr2
  injection hr2 with hrm
  subst hrm
  rw [hm1, hm2]
  exact ⟨rfl, rfl, rfl, rfl, rfl, rfl⟩

/-- Witness for C8: the five-row example run at elapsed times 0 and 7
yields the same record apart from latency_ms. -/
theorem C8_idempotent_runs_witness :
    ({ version := .str "v1", rows_processed := 5, metric := "signal_rate",
       value := 3 / 5, latency_ms := 0, seed := .int 42,
       status := "success" } : Metrics).version =
      ({ version := .str "v1", rows_processed := 5, metric := "signal_rate",
         value := 3 / 5, latency_ms := 7, seed := .int 42,
         status := "success" } : Metrics).version ∧
    (5 : ℕ) = 5 ∧ ("signal_rate" : String) = "signal_rate" ∧
    (3 / 5 : ℚ) = 3 / 5 ∧ Val.int 42 = Val.int 42 ∧
    ("success" : String) = "success" :=
  C8_idempotent_runs envEx5 0 7
    { version := .str "v1", rows_processed := 5, metric := "signal_rate",
      value := 3 / 5, latency_ms := 0, seed := .int 42, status := "success" }
    { version := .str "v1", rows_processed := 5, metric := "signal_rate",
      value := 3 / 5, latency_ms := 7, seed := .int 42, status := "success" }
    (by rw [mainRun_envEx5 0]) (by rw [mainRun_envEx5 7])

/-- C9: on every successful run the value placed in the JSON result is the
signal rate rounded to 4 decimal places, and the rounded value written in
the metrics log line is exactly that same value. -/
theorem C9_rounding_once (env : Env) (l : ℕ) (m : Metrics)
    (h : (mainRun env l).fileOut = .metrics m) :
    (mainRun env l).logValue = some m.value ∧
    ∃ cfg df rm, env.configParsed = some cfg ∧ env.inputParsed = some df ∧
      rollingApply ((lookupKey cfg "window").getD (.str "")) df.close = .ok rm ∧
      m.value = round4 (((signals df.close rm).sum : ℚ) /
        ((signals df.close rm).length : ℚ)) := by
  obtain ⟨q, hq⟩ := mainRun_metrics_inv env l m h
  obtain ⟨cfg, df, rm, hc, hd, hr, hm, hqv⟩ := tryBlock_ok_inv env l m q hq
  refine ⟨?_, cfg, df, rm, (load_config_ok _ _ _ hc).2.1,
    (load_data_ok _ _ _ hd).2.1, hr, by rw [hm]⟩
  rw [mainRun_of_ok env l m q hq]
  show some q = some m.value
  rw [hqv]

/-- Witness for C9 on the five-row example: the logged value and the JSON
value are both 3/5. -/
theorem C9_rounding_once_witness :
    (mainRun envEx5 0).logValue = some ((3 : ℚ) / 5) ∧
    ∃ cfg df rm, envEx5.configParsed = some cfg ∧ envEx5.inputParsed = some df ∧
      rollingApply ((lookupKey cfg "window").getD (.str "")) df.close = .ok rm ∧
      (3 / 5 : ℚ) = round4 (((signals df.close rm).sum : ℚ) /
        ((signals df.close rm).length : ℚ)) :=
  C9_rounding_once envEx5 0
    { version := .str "v1", rows_processed := 5, metric := "signal_rate",
      value := 3 / 5, latency_ms := 0, seed := .int 42, status := "success" }
    (by rw [mainRun_envEx5 0])

/-- C10: when the configured window is an integer strictly greater than
the number of rows, the run still succeeds with exit code 0: every rolling
mean entry is undefined, every signal is 0, and the reported value is 0. -/
theorem C10_window_exceeds_rows (cfg : ConfigFile) (df : DataFrame) (n : ℤ)
    (l : ℕ)
    (hs : hasKey cfg "seed" = true) (hv : hasKey cfg "version" = true)
    (hwv : lookupKey cfg "window" = some (.int n))
    (hn : df.nrows ≠ 0) (hc : "close" ∈ df.columns)
    (hlen : df.close.length = df.nrows)
    (hbig : (df.nrows : ℤ) < n) :
    rollingMean n.toNat df.close = List.replicate df.close.length none ∧
    signals df.close (rollingMean n.toNat df.close) =
      List.replicate df.close.length 0 ∧
    mainRun { configExists := true, configParsed := some cfg,
              inputExists := true, inputParsed := some df } l =
      { fileOut := .metrics { version := (lookupKey cfg "version").getD (.str ""),
                              rows_processed := df.nrows,
                              metric := "signal_rate", value := 0,
                              latency_ms := l,
                              seed := (lookupKey cfg "seed").getD (.str ""),
                              status := "success" }
        stdout := .metrics { version := (lookupKey cfg "version").getD (.str ""),
                             rows_processed := df.nrows,
                             metric := "signal_rate", value := 0,
                             latency_ms := l,
                             seed := (lookupKey cfg "seed").getD (.str ""),
                             status := "success" }
        exitCode := 0
        logValue := some 0 } := by
  have hw : hasKey cfg "window" = true := by simp [hasKey, hwv]
  have hrep : rollingMean n.toNat df.close = List.replicate df.close.length none := by
    rw [List.eq_replicate_iff]
    refine ⟨rollingMean_length _ _, ?_⟩
    intro b hb
    simp only [rollingMean, List.mem_map, List.mem_range] at hb
    obtain ⟨i, hi, hfi⟩ := hb
    rw [← hfi]
    have hcond : ¬(1 ≤ n.toNat ∧ n.toNat ≤ i + 1) := by omega
    rw [if_neg hcond]
  have hsigr : signals df.close (rollingMean n.toNat df.close) =
      List.replicate df.close.length 0 := by
    rw [hrep, signals_replicate_none]
  refine ⟨hrep, hsigr, ?_⟩
  have hok : load_config true (some cfg) = .ok cfg := by
    unfold load_config
    simp [hs, hw, hv]
  have hdok : load_data true (some df) = .ok df := by
    unfold load_data
    simp [hn, hc]
  have hr : rollingApply ((lookupKey cfg "window").getD (.str "")) df.close =
      .ok (rollingMean n.toNat df.close) := by
    rw [show (lookupKey cfg "window").getD (.str "") = .int n by rw [hwv]; rfl]
    simp only [rollingApply]
    rw [if_neg (show ¬n < 0 by omega)]
  have key := tryBlock_ok_intro
    { configExists := true, configParsed := some cfg,
      inputExists := true, inputParsed := some df } l cfg df
    (rollingMean n.toNat df.close) hok hdok hr
  rw [mainRun_of_ok _ _ _ _ key]
  have hval : round4 (((signals df.close (rollingMean n.toNat df.close)).sum : ℚ) /
      ((signals df.close (rollingMean n.toNat df.close)).length : ℚ)) = 0 := by
    rw [hsigr]
    simp [List.sum_replicate, round4_zero]
  rw [hval]

/-- Witness for C10: window 9 on the three-row frame succeeds with all
rolling means undefined, all signals 0, and reported value 0. -/
theorem C10_window_exceeds_rows_witness :
    rollingMean (Int.toNat 9) dfEx3.close = List.replicate dfEx3.close.length none ∧
    signals dfEx3.close (rollingMean (Int.toNat 9) dfEx3.close) =
      List.replicate dfEx3.close.length 0 ∧
    mainRun envWin9 0 =
      { fileOut := .metrics { version := .str "v1", rows_processed := 3,
                              metric := "signal_rate", value := 0,
                              latency_ms := 0, seed := .int 42,
                              status := "success" }
        stdout := .metrics { version := .str "v1", rows_processed := 3,
                             metric := "signal_rate", value := 0,
                             latency_ms := 0, seed := .int 42,
                             status := "success" }
        exitCode := 0
        logValue := some 0 } :=
  C10_window_exceeds_rows cfgWin9 dfEx3 9 0 (by decide) (by decide) (by decide)
    (by decide) (by decide) (by rfl) (by decide)
